import Mathlib

/-!
Shallow embedding of the SalesBrito/APISeguranca backend
(`src/backend/server.py`), a FastAPI + MongoDB service for a
physical-security operation: users (vigilante / supervisor /
administrador), occurrences, rounds (rondas), shifts (plantões).

Modelling conventions:
* The MongoDB collections become Lean lists in insertion order
  (`insert_one` appends; `find_one` is `List.find?`; `update_one`
  updates the first matching document; `$push` appends to a list
  field; `sort("created_at", -1)` is a stable merge sort by
  descending `created_at`).
* Wall-clock instants are `Nat` seconds; `timedelta(minutes=m)` is
  `m * 60` seconds.
* The password hasher (passlib) and the HS256 signer (PyJWT) are
  external collaborators: they are modelled by an `Env` record
  carrying an abstract `verify_password`/`get_password_hash` pair and
  a signing key; a JWT is a record of its claims plus the key it was
  signed with, and `jwt.decode` succeeds exactly when the key matches
  and the token is unexpired.
* Fresh UUIDs and `datetime.now` values are passed to each operation
  as explicit parameters (`newId`, `now`, ...).
* The audit recorder (`log_audit`) appends to a separate append-only
  collection that no modelled behaviour reads back; it is elided from
  the store.
* Handlers raise `HTTPException(status_code, detail)`; we model a
  handler as returning `Except HTTPException`, `.error` carrying the
  status code and detail, `.ok` carrying the response (and the
  updated store for mutating handlers).
-/

namespace APISeguranca

/-- `class UserRole(str, Enum)` from server.py. -/
inductive UserRole where
  | vigilante
  | supervisor
  | administrador
deriving DecidableEq, Repr, BEq

/-- `class OccurrenceType(str, Enum)` from server.py. -/
inductive OccurrenceType where
  | roubo
  | vandalismo
  | incendio
  | acidente
  | suspeito
  | emergencia_medica
  | acesso_nao_autorizado
  | outros
deriving DecidableEq, Repr, BEq

/-- `class RoundStatus(str, Enum)`: iniciada / em_andamento / concluida / interrompida. -/
inductive RoundStatus where
  | iniciada
  | em_andamento
  | concluida
  | interrompida
deriving DecidableEq, Repr, BEq

/-- `class ShiftStatus(str, Enum)`: ativo / inativo / pausa. -/
inductive ShiftStatus where
  | ativo
  | inativo
  | pausa
deriving DecidableEq, Repr, BEq

/-- `class Priority(str, Enum)`: baixa / media / alta / critica. -/
inductive Priority where
  | baixa
  | media
  | alta
  | critica
deriving DecidableEq, Repr, BEq

/-- A user document as stored in `db.users`: the pydantic `User`
fields plus the hashed password stored under key `"senha"`
(`user_dict["senha"] = hashed_password`).  `ativo` is `Option Bool`
because `login` reads it as `user.get("ativo", True)`, defaulting to
`True` when the key is absent. -/
structure StoredUser where
  id : String
  nome : String
  email : String
  role : UserRole
  telefone : Option String := none
  setor : Option String := none
  ativo : Option Bool := some true
  ultimo_login : Option Nat := none
  created_at : Nat := 0
  senha : String
deriving DecidableEq, Repr

/-- The pydantic `User` response model (no password field; pydantic
drops the extra `senha` key when constructing `User(**user)`). -/
structure User where
  id : String
  nome : String
  email : String
  role : UserRole
  telefone : Option String := none
  setor : Option String := none
  ativo : Bool := true
  ultimo_login : Option Nat := none
  created_at : Nat := 0
deriving DecidableEq, Repr

/-- `User(**user)` applied to a stored document (the `senha` key is
ignored; a missing `ativo` takes the pydantic default `True`). -/
def StoredUser.toUser (u : StoredUser) : User :=
  { id := u.id, nome := u.nome, email := u.email, role := u.role,
    telefone := u.telefone, setor := u.setor,
    ativo := u.ativo.getD true, ultimo_login := u.ultimo_login,
    created_at := u.created_at }

/-- `class UserLogin(BaseModel)`. -/
structure UserLogin where
  email : String
  senha : String
deriving DecidableEq, Repr

/-- `class PasswordChange(BaseModel)`. -/
structure PasswordChange where
  senha_atual : String
  nova_senha : String
  confirmar_senha : String
deriving DecidableEq, Repr

/-- `class Occurrence(BaseModel)`. -/
structure Occurrence where
  id : String
  «local» : String
  tipo : OccurrenceType
  prioridade : Priority
  descricao : String
  fotos : List String := []
  usuario_id : String
  usuario_nome : String
  resolvida : Bool := false
  data_resolucao : Option Nat := none
  observacoes_resolucao : Option String := none
  created_at : Nat := 0
deriving DecidableEq, Repr

/-- `class OccurrenceResolve(BaseModel)`. -/
structure OccurrenceResolve where
  observacoes_resolucao : String
deriving DecidableEq, Repr

/-- `class Round(BaseModel)`. -/
structure Round where
  id : String
  vigilante_id : String
  vigilante_nome : String
  inicio : Nat
  fim : Option Nat := none
  status : RoundStatus
  locais_visitados : List String := []
  observacoes : Option String := none
  incidentes_encontrados : Nat := 0
  created_at : Nat := 0
deriving DecidableEq, Repr

/-- `class RoundCreate(BaseModel)`. -/
structure RoundCreate where
  locais_visitados : List String
  observacoes : Option String := none
deriving DecidableEq, Repr

/-- `class Shift(BaseModel)`. -/
structure Shift where
  id : String
  vigilante_id : String
  vigilante_nome : String
  inicio : Nat
  fim : Option Nat := none
  status : ShiftStatus
  local_responsavel : String
  observacoes : Option String := none
  created_at : Nat := 0
deriving DecidableEq, Repr

/-- The claims PyJWT encodes/decodes: `{"sub": <user-id>, "exp": <ts>}`.
`sub` is `Option` because `payload.get("sub")` may return `None`. -/
structure JwtClaims where
  sub : Option String
  exp : Nat
deriving DecidableEq, Repr

/-- A signed compact token: its claims plus the symmetric key it was
signed with (signature validity = key equality in this model). -/
structure JwtToken where
  claims : JwtClaims
  signedWith : String
deriving DecidableEq, Repr

/-- `class Token(BaseModel)`: the login response. -/
structure Token where
  access_token : JwtToken
  token_type : String
  user : User
deriving DecidableEq, Repr

/-- `fastapi.HTTPException(status_code=..., detail=...)`. -/
structure HTTPException where
  status_code : Nat
  detail : String
deriving DecidableEq, Repr

/-- The external collaborators: process configuration (`SECRET_KEY`)
and the passlib bcrypt context (`pwd_context.verify` / `pwd_context.hash`). -/
structure Env where
  SECRET_KEY : String
  verify_password : String → String → Bool
  get_password_hash : String → String

/-- The MongoDB database: one list per collection, in insertion order. -/
structure Store where
  users : List StoredUser := []
  occurrences : List Occurrence := []
  rounds : List Round := []
  shifts : List Shift := []
deriving Repr, DecidableEq

/-- `ACCESS_TOKEN_EXPIRE_MINUTES = 480` (server.py line 31). -/
def ACCESS_TOKEN_EXPIRE_MINUTES : Nat := 480

/-- `timedelta(minutes=m)` in seconds. -/
def minutes (m : Nat) : Nat := m * 60

/-- Mongo `update_one`: apply `f` to the first element satisfying `p`,
leave everything else untouched. -/
def updateFirst (p : α → Bool) (f : α → α) : List α → List α
  | [] => []
  | x :: xs => if p x then f x :: xs else x :: updateFirst p f xs

/-- Mongo `.sort(key, -1)`: stable sort by descending key. -/
def sortDescBy (key : α → Nat) (l : List α) : List α :=
  l.mergeSort (fun a b => Nat.ble (key b) (key a))

/-- `create_access_token(data, expires_delta)` (server.py 218-226):
`exp = now + expires_delta` when a truthy delta is given, else
`now + timedelta(minutes=ACCESS_TOKEN_EXPIRE_MINUTES)` (a zero
`timedelta` is falsy in Python, hence the `d ≠ 0` guard). -/
def create_access_token (env : Env) (sub : Option String)
    (expires_delta : Option Nat) (now : Nat) : JwtToken :=
  let expire : Nat :=
    match expires_delta with
    | some d => if d ≠ 0 then now + d else now + minutes ACCESS_TOKEN_EXPIRE_MINUTES
    | none => now + minutes ACCESS_TOKEN_EXPIRE_MINUTES
  { claims := { sub := sub, exp := expire }, signedWith := env.SECRET_KEY }

/-- `jwt.decode(token, SECRET_KEY, algorithms=[ALGORITHM])`: succeeds
exactly when the signature verifies under `key` and the token is not
expired; any failure raises `PyJWTError`, modelled as `none`. -/
def jwt_decode (tok : JwtToken) (key : String) (now : Nat) : Option JwtClaims :=
  if tok.signedWith == key && Nat.blt now tok.claims.exp then some tok.claims else none

/-- The 401 raised throughout `get_current_user`. -/
def credentials_exception : HTTPException :=
  { status_code := 401, detail := "Credenciais inválidas" }

/-- `get_current_user` (server.py 240-257): decode the bearer token,
extract `sub`, look the user up by id; any failure is the same 401.
Note: the user's `ativo` flag is NOT examined here. -/
def get_current_user (env : Env) (st : Store) (credentials : JwtToken)
    (now : Nat) : Except HTTPException User :=
  match jwt_decode credentials env.SECRET_KEY now with
  | none => .error credentials_exception
  | some payload =>
    match payload.sub with
    | none => .error credentials_exception
    | some user_id =>
      match st.users.find? (fun u => u.id == user_id) with
      | none => .error credentials_exception
      | some user => .ok user.toUser

/-- `login` (server.py 306-342): find the user by email; 401 if absent
or the password does not verify; 401 if `user.get("ativo", True)` is
false; otherwise stamp `ultimo_login = now`, issue a token with
`sub = user id` and an explicit 480-minute delta, and return the
(pre-update) user object. -/
def login (env : Env) (st : Store) (user_credentials : UserLogin)
    (now : Nat) : Except HTTPException (Token × Store) :=
  match st.users.find? (fun u => u.email == user_credentials.email) with
  | none =>
    .error { status_code := 401, detail := "Email ou senha incorretos" }
  | some user =>
    if ¬ env.verify_password user_credentials.senha user.senha then
      .error { status_code := 401, detail := "Email ou senha incorretos" }
    else if ¬ user.ativo.getD true then
      .error { status_code := 401, detail := "Usuário desativado" }
    else
      let users' :=
        updateFirst (fun u => u.id == user.id)
          (fun u => { u with ultimo_login := some now }) st.users
      let st' : Store := { st with users := users' }
      let access_token := create_access_token env (some user.id)
        (some (minutes ACCESS_TOKEN_EXPIRE_MINUTES)) now
      .ok ({ access_token := access_token, token_type := "bearer",
             user := user.toUser }, st')

/-- `change_password` (server.py 348-384): 400 if the new password and
its confirmation differ; re-fetch the caller by id and 400
("Senha atual incorreta") if absent or the current password does not
verify; otherwise overwrite the stored hash with the hash of the new
password. -/
def change_password (env : Env) (st : Store) (password_data : PasswordChange)
    (current_user : User) : Except HTTPException (String × Store) :=
  if password_data.nova_senha ≠ password_data.confirmar_senha then
    .error { status_code := 400, detail := "Nova senha e confirmação não coincidem" }
  else
    match st.users.find? (fun u => u.id == current_user.id) with
    | none =>
      .error { status_code := 400, detail := "Senha atual incorreta" }
    | some user =>
      if ¬ env.verify_password password_data.senha_atual user.senha then
        .error { status_code := 400, detail := "Senha atual incorreta" }
      else
        let users' :=
          updateFirst (fun u => u.id == current_user.id)
            (fun u => { u with senha := env.get_password_hash password_data.nova_senha })
            st.users
        let st' : Store := { st with users := users' }
        .ok ("Senha alterada com sucesso", st')

/-- `resolve_occurrence` (server.py 532-563): 404 if the id is
unknown; otherwise unconditionally set `resolvida = True`,
`data_resolucao = now`, `observacoes_resolucao = given notes` on the
matching document.  No role or ownership check of any kind. -/
def resolve_occurrence (st : Store) (occurrence_id : String)
    (resolve_data : OccurrenceResolve) (current_user : User)
    (now : Nat) : Except HTTPException (String × Store) :=
  match st.occurrences.find? (fun o => o.id == occurrence_id) with
  | none => .error { status_code := 404, detail := "Ocorrência não encontrada" }
  | some _ =>
    let resolveDoc : Occurrence → Occurrence := fun o =>
      { o with resolvida := true, data_resolucao := some now,
               observacoes_resolucao := some resolve_data.observacoes_resolucao }
    let occurrences' :=
      updateFirst (fun o => o.id == occurrence_id) resolveDoc st.occurrences
    .ok ("Ocorrência marcada como resolvida", { st with occurrences := occurrences' })

/-- `file.filename.split(".")[-1] if "." in file.filename else "jpg"`:
the extension is the last dot-separated segment, defaulting to "jpg"
when the filename contains no dot. -/
def fileExtension (filename : String) : String :=
  if 2 ≤ (filename.splitOn ".").length then (filename.splitOn ".").getLastD "jpg"
  else "jpg"

/-- `upload_occurrence_photo` (server.py 565-604): 404 if the
occurrence is unknown; 403 unless the caller is the original reporter
or a supervisor/administrador; otherwise build
`<occurrence-id>_<uuid4>.<ext>`, write the binary (filesystem side
effect, not modelled), and `$push` the `/uploads/<filename>` URL onto
the occurrence's `fotos`. -/
def upload_occurrence_photo (st : Store) (occurrence_id : String)
    (file_filename : String) (current_user : User) (newId : String) :
    Except HTTPException ((String × String) × Store) :=
  match st.occurrences.find? (fun o => o.id == occurrence_id) with
  | none => .error { status_code := 404, detail := "Ocorrência não encontrada" }
  | some occurrence =>
    if occurrence.usuario_id != current_user.id
        && !([UserRole.supervisor, UserRole.administrador].contains current_user.role) then
      .error { status_code := 403, detail := "Sem permissão para editar esta ocorrência" }
    else
      let file_extension := fileExtension file_filename
      let filename := occurrence_id ++ "_" ++ newId ++ "." ++ file_extension
      let photo_url := "/uploads/" ++ filename
      let occurrences' :=
        updateFirst (fun o => o.id == occurrence_id)
          (fun o => { o with fotos := o.fotos ++ [photo_url] })
          st.occurrences
      .ok (("Foto enviada com sucesso", photo_url), { st with occurrences := occurrences' })

/-- `get_occurrences` (server.py 606-614): vigilantes only see their
own occurrences; everyone else sees all; sorted by `created_at`
descending and capped by `.to_list(1000)` at the 1000 newest. -/
def get_occurrences (st : Store) (current_user : User) : List Occurrence :=
  let matched :=
    if current_user.role == UserRole.vigilante then
      st.occurrences.filter (fun o => o.usuario_id == current_user.id)
    else st.occurrences
  (sortDescBy (fun o => o.created_at) matched).take 1000

/-- Round status is "active" when it is iniciada or em_andamento
(the `$in` filter of `start_round`). -/
def roundActive (r : Round) : Bool :=
  r.status == RoundStatus.iniciada || r.status == RoundStatus.em_andamento

/-- `start_round` (server.py 629-666): 400 if the calling guard
already has a round with status in {iniciada, em_andamento};
otherwise insert a new round with status iniciada and `inicio = now`. -/
def start_round (st : Store) (round_data : RoundCreate)
    (current_user : User) (now : Nat) (newId : String) :
    Except HTTPException (Round × Store) :=
  match st.rounds.find? (fun r => r.vigilante_id == current_user.id && roundActive r) with
  | some _ =>
    .error { status_code := 400,
             detail := "Você já possui uma ronda ativa. Finalize-a antes de iniciar uma nova." }
  | none =>
    let round_obj : Round :=
      { id := newId, vigilante_id := current_user.id,
        vigilante_nome := current_user.nome, inicio := now,
        status := RoundStatus.iniciada,
        locais_visitados := round_data.locais_visitados,
        observacoes := round_data.observacoes,
        incidentes_encontrados := 0, created_at := now }
    .ok (round_obj, { st with rounds := st.rounds ++ [round_obj] })

/-- `finish_round` (server.py 668-701): 404 if unknown; 403 unless the
caller owns the round or is supervisor/administrador; otherwise
unconditionally set `fim = now` and `status = concluida` (no check
that the round was active). -/
def finish_round (st : Store) (round_id : String) (current_user : User)
    (now : Nat) : Except HTTPException (String × Store) :=
  match st.rounds.find? (fun r => r.id == round_id) with
  | none => .error { status_code := 404, detail := "Ronda não encontrada" }
  | some round_obj =>
    if round_obj.vigilante_id != current_user.id
        && !([UserRole.supervisor, UserRole.administrador].contains current_user.role) then
      .error { status_code := 403, detail := "Sem permissão para finalizar esta ronda" }
    else
      let rounds' :=
        updateFirst (fun r => r.id == round_id)
          (fun r => { r with fim := some now, status := RoundStatus.concluida })
          st.rounds
      .ok ("Ronda finalizada com sucesso", { st with rounds := rounds' })

/-- `get_rounds` (server.py 703-711): vigilantes only see their own
rounds; everyone else sees all; sorted by `created_at` descending and
capped by `.to_list(1000)` at the 1000 newest. -/
def get_rounds (st : Store) (current_user : User) : List Round :=
  let matched :=
    if current_user.role == UserRole.vigilante then
      st.rounds.filter (fun r => r.vigilante_id == current_user.id)
    else st.rounds
  (sortDescBy (fun r => r.created_at) matched).take 1000

/-- `get_shifts` (server.py 467-475): vigilantes only see their own
shifts; everyone else sees all; sorted by `created_at` descending and
capped by `.to_list(1000)` at the 1000 newest. -/
def get_shifts (st : Store) (current_user : User) : List Shift :=
  let matched :=
    if current_user.role == UserRole.vigilante then
      st.shifts.filter (fun s => s.vigilante_id == current_user.id)
    else st.shifts
  (sortDescBy (fun s => s.created_at) matched).take 1000

/-- The per-guard round invariant from the spec: at most one round
with status in {iniciada, em_andamento} per guard. -/
def roundsInvariant (st : Store) : Prop :=
  ∀ g : String,
    (st.rounds.filter (fun r => r.vigilante_id == g && roundActive r)).length ≤ 1

/-! ### Helper lemmas about the Mongo primitives -/

theorem updateFirst_decomp {p : α → Bool} {f : α → α} :
    ∀ {l : List α} {x : α}, l.find? p = some x →
    ∃ pre post, l = pre ++ x :: post ∧ (∀ a ∈ pre, p a = false) ∧
      updateFirst p f l = pre ++ f x :: post := by
  intro l
  induction l with
  | nil => intro x h; simp at h
  | cons a as ih =>
    intro x h
    by_cases hp : p a = true
    · rw [List.find?_cons_of_pos _ hp] at h
      cases h
      exact ⟨[], as, rfl, by simp, by simp [updateFirst, hp]⟩
    · rw [List.find?_cons_of_neg _ hp] at h
      obtain ⟨pre, post, hl, hpre, hu⟩ := ih h
      refine ⟨a :: pre, post, by simp [hl], ?_, ?_⟩
      · intro b hb
        rcases List.mem_cons.mp hb with hb | hb
        · subst hb; exact Bool.eq_false_iff.mpr hp
        · exact hpre b hb
      · simp [updateFirst, hp, hu]

theorem find?_updateFirst {p : α → Bool} {f : α → α} :
    ∀ {l : List α} {x : α}, l.find? p = some x → p (f x) = true →
    (updateFirst p f l).find? p = some (f x) := by
  intro l
  induction l with
  | nil => intro x h; simp at h
  | cons a as ih =>
    intro x h hf
    by_cases hp : p a = true
    · rw [List.find?_cons_of_pos _ hp] at h
      cases h
      simp [updateFirst, hp, List.find?_cons_of_pos _ hf]
    · rw [List.find?_cons_of_neg _ hp] at h
      simp only [updateFirst, if_neg hp]
      rw [List.find?_cons_of_neg _ hp]
      exact ih h hf

theorem find?_by_key_of_nodup {key : α → String} :
    ∀ {l : List α}, (l.map key).Nodup → ∀ {u : α}, u ∈ l →
    l.find? (fun x => key x == key u) = some u := by
  intro l
  induction l with
  | nil => intro _ u hu; simp at hu
  | cons a as ih =>
    intro hnd u hu
    rw [List.map_cons, List.nodup_cons] at hnd
    rcases List.mem_cons.mp hu with hu | hu
    · subst hu
      exact List.find?_cons_of_pos _ (by simp)
    · have hne : (key a == key u) = false := by
        apply beq_eq_false_iff_ne.mpr
        intro hcontra
        exact hnd.1 (hcontra ▸ List.mem_map_of_mem key hu)
      rw [List.find?_cons_of_neg _ (by simp [hne]), ih hnd.2 hu]

theorem sortDescBy_perm (key : α → Nat) (l : List α) :
    (sortDescBy key l).Perm l :=
  List.mergeSort_perm l _

theorem sorted_sortDescBy (key : α → Nat) (l : List α) :
    (sortDescBy key l).Sorted (fun a b => key b ≤ key a) := by
  have h := @List.sorted_mergeSort α (fun a b => Nat.ble (key b) (key a))
    (fun a b c hab hbc => by
      simp only [Nat.ble_eq] at hab hbc ⊢; exact Nat.le_trans hbc hab)
    (fun a b => by
      rcases Nat.le_total (key b) (key a) with h | h <;> simp [Nat.ble_eq, h])
    l
  exact List.Pairwise.imp (fun hab => by simpa [Nat.ble_eq] using hab) h

/-- Inversion for `resolve_occurrence` on a known id: the exact
success output. -/
theorem resolve_occurrence_found {st : Store} {oid : String}
    {d : OccurrenceResolve} {cu : User} {now : Nat} {occ : Occurrence}
    (h : st.occurrences.find? (fun o => o.id == oid) = some occ) :
    resolve_occurrence st oid d cu now =
      .ok ("Ocorrência marcada como resolvida",
        { st with occurrences := updateFirst (fun o => o.id == oid) (fun o => { o with resolvida := true, data_resolucao := some now, observacoes_resolucao := some d.observacoes_resolucao }) st.occurrences }) := by
  simp [resolve_occurrence, h]

/-! ### Concrete fixtures used by the witnesses -/

/-- A concrete environment: the hash of `p` is the string `h:p`, and
verification is equality with that hash (a stand-in for the external
bcrypt collaborator). -/
def envW : Env :=
  { SECRET_KEY := "segredo"
    verify_password := fun plain hashed => hashed == "h:" ++ plain
    get_password_hash := fun plain => "h:" ++ plain }

/-- An active guard account. -/
def guardW : StoredUser :=
  { id := "u1", nome := "Maria", email := "maria@x.com",
    role := UserRole.vigilante, senha := "h:pw1" }

/-- A deactivated guard account. -/
def inactiveW : StoredUser :=
  { id := "u2", nome := "Ana", email := "ana@x.com",
    role := UserRole.vigilante, ativo := some false, senha := "h:pw2" }

/-- An occurrence reported by `u1`. -/
def occW : Occurrence :=
  { id := "o1", «local» := "Portaria Principal", tipo := OccurrenceType.suspeito,
    prioridade := Priority.media, descricao := "movimento estranho",
    usuario_id := "u1", usuario_nome := "Maria", created_at := 50 }

/-- A guard who is not the author of `occW`. -/
def strangerW : User :=
  { id := "u9", nome := "Clara", email := "clara@x.com",
    role := UserRole.vigilante }

/-- A round of guard `u1` that has already been completed. -/
def roundW : Round :=
  { id := "r1", vigilante_id := "u1", vigilante_nome := "Maria",
    inicio := 5, fim := some 8, status := RoundStatus.concluida,
    created_at := 5 }

/-- A supervisor account. -/
def supW : User :=
  { id := "s1", nome := "João", email := "sup@x.com",
    role := UserRole.supervisor }

/-- A store holding 1001 occurrences with pairwise distinct ids and
creation times — one more than the `.to_list(1000)` cap. -/
def bigStoreW : Store :=
  { occurrences := (List.range 1001).map
      (fun i => { occW with id := toString i, created_at := i }) }

/-! ### C1: login failures are 401 -/

/-- C1: for every login request whose email is unknown, whose password
does not verify against the stored hash, or whose resolved user has
active flag false, `login` fails with HTTP 401 and never returns 200. -/
theorem login_unauthenticated_401 (env : Env) (st : Store)
    (creds : UserLogin) (now : Nat)
    (h : st.users.find? (fun x => x.email == creds.email) = none ∨
      (∃ u, st.users.find? (fun x => x.email == creds.email) = some u ∧
        env.verify_password creds.senha u.senha = false) ∨
      (∃ u, st.users.find? (fun x => x.email == creds.email) = some u ∧
        u.ativo.getD true = false)) :
    ∃ e, login env st creds now = .error e ∧ e.status_code = 401 := by
  rcases h with h | ⟨u, hu, hv⟩ | ⟨u, hu, ha⟩
  · exact ⟨{ status_code := 401, detail := "Email ou senha incorretos" },
      by simp [login, h], rfl⟩
  · exact ⟨{ status_code := 401, detail := "Email ou senha incorretos" },
      by simp [login, hu, hv], rfl⟩
  · by_cases hv : env.verify_password creds.senha u.senha = true
    · exact ⟨{ status_code := 401, detail := "Usuário desativado" },
        by simp [login, hu, hv, ha], rfl⟩
    · exact ⟨{ status_code := 401, detail := "Email ou senha incorretos" },
        by simp [login, hu, Bool.eq_false_iff.mpr hv], rfl⟩

/-- C1 witness: unknown email, wrong password, and a deactivated
account each produce a 401 at a concrete store. -/
theorem login_unauthenticated_401_witness :
    ∃ e, login envW { users := [guardW, inactiveW] }
      { email := "nobody@x.com", senha := "pw" } 5 = .error e ∧
      e.status_code = 401 :=
  login_unauthenticated_401 envW _ _ 5 (Or.inl (by decide))

/-! ### C2: successful login -/

/-- C2: for every (email, password) pair matching a stored active
user, `login` succeeds and returns a signed token whose `sub` claim is
that user's id and whose `exp` claim is the issue time plus the
configured TTL (480 minutes), and stamps that user's `ultimo_login`
with the issue time; the other collections are untouched. -/
theorem login_success_token (env : Env) (st : Store) (creds : UserLogin)
    (now : Nat) (u : StoredUser)
    (hfind : st.users.find? (fun x => x.email == creds.email) = some u)
    (hpw : env.verify_password creds.senha u.senha = true)
    (hactive : u.ativo.getD true = true)
    (hids : (st.users.map (fun x => x.id)).Nodup) :
    ∃ st' : Store,
      login env st creds now =
        .ok ({ access_token :=
                 { claims := { sub := some u.id,
                               exp := now + minutes ACCESS_TOKEN_EXPIRE_MINUTES },
                   signedWith := env.SECRET_KEY },
               token_type := "bearer", user := u.toUser }, st') ∧
      ACCESS_TOKEN_EXPIRE_MINUTES = 480 ∧
      st'.users.find? (fun x => x.id == u.id) =
        some { u with ultimo_login := some now } ∧
      st'.occurrences = st.occurrences ∧ st'.rounds = st.rounds ∧
      st'.shifts = st.shifts := by
  have hmem : u ∈ st.users := List.mem_of_find?_eq_some hfind
  have h1 : st.users.find? (fun x => x.id == u.id) = some u := by
    simpa using @find?_by_key_of_nodup StoredUser (fun x => x.id) st.users hids u hmem
  refine ⟨{ st with users := updateFirst (fun x => x.id == u.id) (fun x => { x with ultimo_login := some now }) st.users }, ?_, rfl, ?_, rfl, rfl, rfl⟩
  · simp [login, hfind, hpw, hactive, create_access_token, minutes,
      ACCESS_TOKEN_EXPIRE_MINUTES]
  · exact find?_updateFirst
      (f := fun x => { x with ultimo_login := some now }) h1 (by simp)

/-- C2 witness: the seeded guard logs in at time 100 and receives a
token with subject `u1` expiring at `100 + 480·60`. -/
theorem login_success_token_witness :
    ∃ st' : Store,
      login envW { users := [guardW] } { email := "maria@x.com", senha := "pw1" } 100 =
        .ok ({ access_token :=
                 { claims := { sub := some guardW.id,
                               exp := 100 + minutes ACCESS_TOKEN_EXPIRE_MINUTES },
                   signedWith := envW.SECRET_KEY },
               token_type := "bearer", user := guardW.toUser }, st') ∧
      ACCESS_TOKEN_EXPIRE_MINUTES = 480 ∧
      st'.users.find? (fun x => x.id == guardW.id) =
        some { guardW with ultimo_login := some 100 } ∧
      st'.occurrences = [] ∧ st'.rounds = [] ∧ st'.shifts = [] :=
  login_success_token envW { users := [guardW] }
    { email := "maria@x.com", senha := "pw1" } 100 guardW
    (by decide) (by decide) (by decide) (by decide)

/-! ### C6: per-request authentication never re-checks the active flag -/

/-- C6: a well-formed, correctly signed, unexpired token whose subject
maps to an existing user authenticates successfully even when that
user's active flag is false — `get_current_user` never consults
`ativo`. -/
theorem get_current_user_no_active_check (env : Env) (st : Store)
    (tok : JwtToken) (now : Nat) (uid : String) (u : StoredUser)
    (hsig : tok.signedWith = env.SECRET_KEY)
    (hexp : now < tok.claims.exp)
    (hsub : tok.claims.sub = some uid)
    (huser : st.users.find? (fun x => x.id == uid) = some u)
    (hinactive : u.ativo.getD true = false) :
    get_current_user env st tok now = .ok u.toUser := by
  simp [get_current_user, jwt_decode, hsig, hsub, huser, Nat.blt_eq, hexp]

/-- C6 witness: a valid token for the deactivated account `u2` still
resolves to that user. -/
theorem get_current_user_no_active_check_witness :
    get_current_user envW { users := [inactiveW] }
      { claims := { sub := some "u2", exp := 10 }, signedWith := "segredo" } 3 =
      .ok inactiveW.toUser :=
  get_current_user_no_active_check envW { users := [inactiveW] }
    { claims := { sub := some "u2", exp := 10 }, signedWith := "segredo" }
    3 "u2" inactiveW rfl (by decide) rfl (by decide) (by decide)

/-! ### C5: password change -/

/-- C5 counterexample: a password change whose current password does
not verify fails with HTTP **400** ("Senha atual incorreta"), not the
401 the claim's taxonomy assigns to `InvalidCredentials`. -/
theorem change_password_wrong_current_is_400_not_401 :
    change_password envW { users := [guardW] }
      { senha_atual := "wrong", nova_senha := "n", confirmar_senha := "n" }
      guardW.toUser =
      .error { status_code := 400, detail := "Senha atual incorreta" } ∧
    (400 : Nat) ≠ 401 :=
  ⟨rfl, by decide⟩

/-- C5 (amended): mismatched confirmation fails with 400; a
non-verifying current password also fails with **400** ("Senha atual
incorreta"); otherwise the stored hash is replaced with the hash of
the new password and the operation succeeds. -/
theorem change_password_spec (env : Env) (st : Store)
    (pd : PasswordChange) (cu : User) :
    (pd.nova_senha ≠ pd.confirmar_senha →
      change_password env st pd cu =
        .error { status_code := 400,
                 detail := "Nova senha e confirmação não coincidem" }) ∧
    (pd.nova_senha = pd.confirmar_senha →
      ∀ u, st.users.find? (fun x => x.id == cu.id) = some u →
        env.verify_password pd.senha_atual u.senha = false →
        change_password env st pd cu =
          .error { status_code := 400, detail := "Senha atual incorreta" }) ∧
    (pd.nova_senha = pd.confirmar_senha →
      ∀ u, st.users.find? (fun x => x.id == cu.id) = some u →
        env.verify_password pd.senha_atual u.senha = true →
        ∃ st', change_password env st pd cu =
            .ok ("Senha alterada com sucesso", st') ∧
          st'.users.find? (fun x => x.id == cu.id) =
            some { u with senha := env.get_password_hash pd.nova_senha }) := by
  refine ⟨fun hne => by simp [change_password, hne], ?_, ?_⟩
  · intro heq u hu hv
    simp [change_password, heq, hu, hv]
  · intro heq u hu hv
    have hp : (u.id == cu.id) = true := by simpa using List.find?_some hu
    refine ⟨{ st with users := updateFirst (fun x => x.id == cu.id) (fun x => { x with senha := env.get_password_hash pd.nova_senha }) st.users }, ?_, ?_⟩
    · simp [change_password, heq, hu, hv]
    · exact find?_updateFirst hu hp

/-- C5 (amended) witness: a correct current password replaces the
stored hash; a concrete mismatch and a concrete wrong current
password each fail with 400. -/
theorem change_password_spec_witness :
    ∃ st', change_password envW { users := [guardW] }
        { senha_atual := "pw1", nova_senha := "nova", confirmar_senha := "nova" }
        guardW.toUser = .ok ("Senha alterada com sucesso", st') ∧
      st'.users.find? (fun x => x.id == guardW.toUser.id) =
        some { guardW with senha := envW.get_password_hash "nova" } :=
  (change_password_spec envW { users := [guardW] }
      { senha_atual := "pw1", nova_senha := "nova", confirmar_senha := "nova" }
      guardW.toUser).2.2 rfl guardW (by decide) (by decide)

/-! ### C7 and C10: resolving occurrences -/

/-- C7: resolving an unknown occurrence id fails with 404; resolving
an existing occurrence twice succeeds both times, and after the second
call the occurrence is resolved with the second call's notes and
timestamp (last write wins). -/
theorem resolve_occurrence_idem (st : Store) (oid : String)
    (d1 d2 : OccurrenceResolve) (cu1 cu2 : User) (t1 t2 : Nat) :
    (st.occurrences.find? (fun o => o.id == oid) = none →
      resolve_occurrence st oid d1 cu1 t1 =
        .error { status_code := 404, detail := "Ocorrência não encontrada" }) ∧
    (∀ occ, st.occurrences.find? (fun o => o.id == oid) = some occ →
      ∃ st1 st2,
        resolve_occurrence st oid d1 cu1 t1 =
          .ok ("Ocorrência marcada como resolvida", st1) ∧
        resolve_occurrence st1 oid d2 cu2 t2 =
          .ok ("Ocorrência marcada como resolvida", st2) ∧
        st2.occurrences.find? (fun o => o.id == oid) =
          some { occ with resolvida := true, data_resolucao := some t2, observacoes_resolucao := some d2.observacoes_resolucao }) := by
  constructor
  · intro h; simp [resolve_occurrence, h]
  · intro occ h
    have hp : (occ.id == oid) = true := by simpa using List.find?_some h
    have hf1 := find?_updateFirst (f := fun o => { o with resolvida := true, data_resolucao := some t1, observacoes_resolucao := some d1.observacoes_resolucao }) h hp
    have hf2 := find?_updateFirst (f := fun o => { o with resolvida := true, data_resolucao := some t2, observacoes_resolucao := some d2.observacoes_resolucao }) hf1 hp
    exact ⟨_, _, resolve_occurrence_found h, resolve_occurrence_found hf1, hf2⟩

/-- C7 witness: occurrence `o1` resolved twice at a concrete store;
the second notes and timestamp survive. -/
theorem resolve_occurrence_idem_witness :
    ∃ st1 st2,
      resolve_occurrence { occurrences := [occW] } "o1"
        { observacoes_resolucao := "primeira" } guardW.toUser 10 =
        .ok ("Ocorrência marcada como resolvida", st1) ∧
      resolve_occurrence st1 "o1"
        { observacoes_resolucao := "segunda" } guardW.toUser 20 =
        .ok ("Ocorrência marcada como resolvida", st2) ∧
      st2.occurrences.find? (fun o => o.id == "o1") =
        some { occW with resolvida := true, data_resolucao := some 20, observacoes_resolucao := some "segunda" } :=
  (resolve_occurrence_idem { occurrences := [occW] } "o1"
      { observacoes_resolucao := "primeira" } { observacoes_resolucao := "segunda" }
      guardW.toUser guardW.toUser 10 20).2 occW (by decide)

/-- C10: `resolve_occurrence` performs no ownership or role check:
for every caller, any error it produces is the 404 for an unknown id
(a 403 is unreachable), and it succeeds on every existing occurrence. -/
theorem resolve_occurrence_no_ownership_check (st : Store) (oid : String)
    (d : OccurrenceResolve) (cu : User) (now : Nat) :
    (∀ e, resolve_occurrence st oid d cu now = .error e →
      e = { status_code := 404, detail := "Ocorrência não encontrada" } ∧
      st.occurrences.find? (fun o => o.id == oid) = none) ∧
    ((∃ o ∈ st.occurrences, (o.id == oid) = true) →
      ∃ st', resolve_occurrence st oid d cu now =
        .ok ("Ocorrência marcada como resolvida", st')) := by
  constructor
  · intro e he
    rcases hfind : st.occurrences.find? (fun o => o.id == oid) with _ | occ
    · simp only [resolve_occurrence, hfind] at he
      cases he
      exact ⟨rfl, hfind⟩
    · simp [resolve_occurrence, hfind] at he
  · intro h
    have hs : (st.occurrences.find? (fun o => o.id == oid)).isSome := by
      rw [List.find?_isSome]
      exact h
    obtain ⟨occ, hocc⟩ := Option.isSome_iff_exists.mp hs
    exact ⟨_, resolve_occurrence_found hocc⟩

/-- C10 witness: a guard who did not author `o1` (the author is `u1`)
resolves it successfully. -/
theorem resolve_occurrence_no_ownership_check_witness :
    (∃ o ∈ Store.occurrences { occurrences := [occW] }, (o.id == "o1") = true) ∧
    ∃ st', resolve_occurrence { occurrences := [occW] } "o1"
      { observacoes_resolucao := "ok" } strangerW 10 =
      .ok ("Ocorrência marcada como resolvida", st') :=
  ⟨⟨occW, by decide, by decide⟩,
    (resolve_occurrence_no_ownership_check { occurrences := [occW] } "o1"
      { observacoes_resolucao := "ok" } strangerW 10).2
      ⟨occW, by decide, by decide⟩⟩

/-! ### C8: finishing rounds -/

/-- C8: `finish_round` fails with 404 on an unknown id, with 403
unless the caller is the owning guard or a supervisor/administrador,
and otherwise unconditionally sets `status = concluida` and
`fim = now` regardless of the round's prior status. -/
theorem finish_round_spec (st : Store) (rid : String) (cu : User) (now : Nat) :
    (st.rounds.find? (fun r => r.id == rid) = none →
      finish_round st rid cu now =
        .error { status_code := 404, detail := "Ronda não encontrada" }) ∧
    (∀ r, st.rounds.find? (fun x => x.id == rid) = some r →
      r.vigilante_id ≠ cu.id → cu.role = UserRole.vigilante →
      finish_round st rid cu now =
        .error { status_code := 403, detail := "Sem permissão para finalizar esta ronda" }) ∧
    (∀ r, st.rounds.find? (fun x => x.id == rid) = some r →
      (r.vigilante_id = cu.id ∨ cu.role = UserRole.supervisor ∨
        cu.role = UserRole.administrador) →
      ∃ st', finish_round st rid cu now = .ok ("Ronda finalizada com sucesso", st') ∧
        st'.rounds.find? (fun x => x.id == rid) =
          some { r with fim := some now, status := RoundStatus.concluida }) := by
  refine ⟨fun h => by simp [finish_round, h], ?_, ?_⟩
  · intro r hr hne hrole
    have hb : (r.vigilante_id == cu.id) = false := beq_eq_false_iff_ne.mpr hne
    have hc : ([UserRole.supervisor, UserRole.administrador].contains cu.role) = false := by
      rw [hrole]; decide
    simp [finish_round, hr, hb, hc, bne]
  · intro r hr howner
    have hp : (r.id == rid) = true := by simpa using List.find?_some hr
    have hcond : (r.vigilante_id != cu.id &&
        !([UserRole.supervisor, UserRole.administrador].contains cu.role)) = false := by
      rcases howner with h | h | h
      · simp [h]
      · have hc : ([UserRole.supervisor, UserRole.administrador].contains cu.role) = true := by
          rw [h]; decide
        simp [hc]
      · have hc : ([UserRole.supervisor, UserRole.administrador].contains cu.role) = true := by
          rw [h]; decide
        simp [hc]
    refine ⟨{ st with rounds := updateFirst (fun x => x.id == rid) (fun x => { x with fim := some now, status := RoundStatus.concluida }) st.rounds }, ?_, ?_⟩
    · simp only [finish_round, hr]
      rw [hcond]
      simp
    · exact find?_updateFirst hr hp

/-- C8 witness: the owning guard "finishes" the already-completed
round `r1` again without error; its end time is re-stamped. -/
theorem finish_round_spec_witness :
    ∃ st', finish_round { rounds := [roundW] } "r1" guardW.toUser 30 =
      .ok ("Ronda finalizada com sucesso", st') ∧
      st'.rounds.find? (fun x => x.id == "r1") =
        some { roundW with fim := some 30, status := RoundStatus.concluida } :=
  (finish_round_spec { rounds := [roundW] } "r1" guardW.toUser 30).2.2
    roundW (by decide) (Or.inl (by decide))

/-! ### C9: photo upload -/

/-- Inversion for `upload_occurrence_photo` when the occurrence exists
and the permission test passes. -/
theorem upload_occurrence_photo_found {st : Store} {oid fname : String}
    {cu : User} {rid : String} {occ : Occurrence}
    (h : st.occurrences.find? (fun o => o.id == oid) = some occ)
    (hcond : (occ.usuario_id != cu.id &&
      !([UserRole.supervisor, UserRole.administrador].contains cu.role)) = false) :
    upload_occurrence_photo st oid fname cu rid =
      .ok (("Foto enviada com sucesso", "/uploads/" ++ (oid ++ "_" ++ rid ++ "." ++ fileExtension fname)),
        { st with occurrences := updateFirst (fun o => o.id == oid) (fun o => { o with fotos := o.fotos ++ ["/uploads/" ++ (oid ++ "_" ++ rid ++ "." ++ fileExtension fname)] }) st.occurrences }) := by
  simp only [upload_occurrence_photo, h]
  rw [hcond]
  simp

/-- C9: photo upload 404s on an unknown occurrence, 403s unless the
caller is the original reporter or supervisor/administrador, and on
success appends exactly one photo URL of the form
`/uploads/<occurrence-id>_<random-id>.<ext>` to the occurrence's
photo list, leaving every prior entry, every other field, and every
other occurrence unchanged; the extension comes from the uploaded
filename, defaulting to `jpg` when it has no dot. -/
theorem upload_occurrence_photo_spec (st : Store) (oid fname : String)
    (cu : User) (rid : String) :
    (st.occurrences.find? (fun o => o.id == oid) = none →
      upload_occurrence_photo st oid fname cu rid =
        .error { status_code := 404, detail := "Ocorrência não encontrada" }) ∧
    (∀ occ, st.occurrences.find? (fun o => o.id == oid) = some occ →
      occ.usuario_id ≠ cu.id → cu.role = UserRole.vigilante →
      upload_occurrence_photo st oid fname cu rid =
        .error { status_code := 403, detail := "Sem permissão para editar esta ocorrência" }) ∧
    (∀ occ, st.occurrences.find? (fun o => o.id == oid) = some occ →
      (occ.usuario_id = cu.id ∨ cu.role = UserRole.supervisor ∨
        cu.role = UserRole.administrador) →
      ∃ pre post,
        st.occurrences = pre ++ occ :: post ∧
        (∀ o ∈ pre, (o.id == oid) = false) ∧
        upload_occurrence_photo st oid fname cu rid =
          .ok (("Foto enviada com sucesso", "/uploads/" ++ (oid ++ "_" ++ rid ++ "." ++ fileExtension fname)),
            { st with occurrences := pre ++ { occ with fotos := occ.fotos ++ ["/uploads/" ++ (oid ++ "_" ++ rid ++ "." ++ fileExtension fname)] } :: post })) ∧
    ((fname.splitOn ".").length < 2 → fileExtension fname = "jpg") ∧
    (2 ≤ (fname.splitOn ".").length →
      fileExtension fname = (fname.splitOn ".").getLastD "jpg") := by
  refine ⟨fun h => by simp [upload_occurrence_photo, h], ?_, ?_, ?_, ?_⟩
  · intro occ hocc hne hrole
    have hb : (occ.usuario_id == cu.id) = false := beq_eq_false_iff_ne.mpr hne
    have hc : ([UserRole.supervisor, UserRole.administrador].contains cu.role) = false := by
      rw [hrole]; decide
    simp [upload_occurrence_photo, hocc, hb, hc, bne]
  · intro occ hocc howner
    have hcond : (occ.usuario_id != cu.id &&
        !([UserRole.supervisor, UserRole.administrador].contains cu.role)) = false := by
      rcases howner with h | h | h
      · simp [h]
      · have hc : ([UserRole.supervisor, UserRole.administrador].contains cu.role) = true := by
          rw [h]; decide
        simp [hc]
      · have hc : ([UserRole.supervisor, UserRole.administrador].contains cu.role) = true := by
          rw [h]; decide
        simp [hc]
    obtain ⟨pre, post, hl, hpre, hu⟩ := updateFirst_decomp (f := fun o => { o with fotos := o.fotos ++ ["/uploads/" ++ (oid ++ "_" ++ rid ++ "." ++ fileExtension fname)] }) hocc
    refine ⟨pre, post, hl, hpre, ?_⟩
    rw [upload_occurrence_photo_found hocc hcond, hu]
  · intro h
    unfold fileExtension
    rw [if_neg (by omega)]
  · intro h
    unfold fileExtension
    rw [if_pos h]

/-- C9 witness: the reporting guard attaches `foto.png` to `o1`; the
stored URL is `/uploads/o1_f1.png` and the photo list grows by exactly
that entry. -/
theorem upload_occurrence_photo_spec_witness :
    ∃ pre post,
      Store.occurrences { occurrences := [occW] } = pre ++ occW :: post ∧
      (∀ o ∈ pre, (o.id == "o1") = false) ∧
      upload_occurrence_photo { occurrences := [occW] } "o1" "foto.png" guardW.toUser "f1" =
        .ok (("Foto enviada com sucesso", "/uploads/" ++ ("o1" ++ "_" ++ "f1" ++ "." ++ fileExtension "foto.png")),
          { occurrences := pre ++ { occW with fotos := occW.fotos ++ ["/uploads/" ++ ("o1" ++ "_" ++ "f1" ++ "." ++ fileExtension "foto.png")] } :: post }) :=
  (upload_occurrence_photo_spec { occurrences := [occW] } "o1" "foto.png"
    guardW.toUser "f1").2.2.1 occW (by decide) (Or.inl (by decide))

/-! ### C3: starting rounds and the one-active-round invariant -/

/-- Appending a round for a guard with no active round preserves the
one-active-round-per-guard invariant. -/
theorem roundsInvariant_append_new {st : Store} {nr : Round}
    (hfind : st.rounds.find? (fun x => x.vigilante_id == nr.vigilante_id && roundActive x) = none)
    (hinv : roundsInvariant st) :
    roundsInvariant { st with rounds := st.rounds ++ [nr] } := by
  intro g
  show ((st.rounds ++ [nr]).filter (fun x => x.vigilante_id == g && roundActive x)).length ≤ 1
  rw [List.filter_append]
  by_cases hg : nr.vigilante_id = g
  · have hzero : st.rounds.filter (fun x => x.vigilante_id == g && roundActive x) = [] := by
      rw [List.filter_eq_nil_iff]
      intro x hx
      have hnx := List.find?_eq_none.mp hfind x hx
      rw [hg] at hnx
      simpa using hnx
    rw [hzero]
    simpa using List.length_filter_le _ [nr]
  · have hnew : (nr.vigilante_id == g) = false := beq_eq_false_iff_ne.mpr hg
    have hone : [nr].filter (fun x => x.vigilante_id == g && roundActive x) = [] := by
      simp [hnew]
    rw [hone, List.append_nil]
    exact hinv g

/-- C3: `start_round` fails with 400 whenever the calling guard
already has a round in {iniciada, em_andamento}; succeeds with a new
round (status iniciada, start time now) whenever all of the guard's
rounds are concluida/interrompida; and every successful start
preserves the at-most-one-active-round-per-guard invariant. -/
theorem start_round_spec (st : Store) (rd : RoundCreate) (cu : User)
    (now : Nat) (newId : String) :
    ((∃ r ∈ st.rounds, (r.vigilante_id == cu.id && roundActive r) = true) →
      ∃ e, start_round st rd cu now newId = .error e ∧ e.status_code = 400) ∧
    ((∀ r ∈ st.rounds, r.vigilante_id = cu.id →
        r.status = RoundStatus.concluida ∨ r.status = RoundStatus.interrompida) →
      ∃ st', start_round st rd cu now newId =
        .ok ({ id := newId, vigilante_id := cu.id, vigilante_nome := cu.nome,
               inicio := now, fim := none, status := RoundStatus.iniciada,
               locais_visitados := rd.locais_visitados, observacoes := rd.observacoes,
               incidentes_encontrados := 0, created_at := now }, st') ∧
        st'.rounds = st.rounds ++
          [{ id := newId, vigilante_id := cu.id, vigilante_nome := cu.nome,
             inicio := now, fim := none, status := RoundStatus.iniciada,
             locais_visitados := rd.locais_visitados, observacoes := rd.observacoes,
             incidentes_encontrados := 0, created_at := now }]) ∧
    (∀ r st', start_round st rd cu now newId = .ok (r, st') →
      roundsInvariant st → roundsInvariant st') := by
  refine ⟨?_, ?_, ?_⟩
  · intro h
    have hs : (st.rounds.find? (fun r => r.vigilante_id == cu.id && roundActive r)).isSome := by
      rw [List.find?_isSome]
      exact h
    obtain ⟨a, ha⟩ := Option.isSome_iff_exists.mp hs
    exact ⟨{ status_code := 400, detail := "Você já possui uma ronda ativa. Finalize-a antes de iniciar uma nova." },
      by simp [start_round, ha], rfl⟩
  · intro h
    have hnone : st.rounds.find? (fun r => r.vigilante_id == cu.id && roundActive r) = none := by
      rw [List.find?_eq_none]
      intro r hr
      by_cases hv : r.vigilante_id = cu.id
      · have hact : roundActive r = false := by
          rcases h r hr hv with hs | hs <;> simp [roundActive, hs] <;> decide
        simp [hact]
      · simp [beq_eq_false_iff_ne.mpr hv]
    exact ⟨{ st with rounds := st.rounds ++ [{ id := newId, vigilante_id := cu.id, vigilante_nome := cu.nome, inicio := now, fim := none, status := RoundStatus.iniciada, locais_visitados := rd.locais_visitados, observacoes := rd.observacoes, incidentes_encontrados := 0, created_at := now }] },
      by simp [start_round, hnone], rfl⟩
  · intro r st' hok hinv
    rcases hfind : st.rounds.find? (fun x => x.vigilante_id == cu.id && roundActive x) with _ | a
    · simp only [start_round, hfind] at hok
      cases hok
      exact roundsInvariant_append_new (by simpa using hfind) hinv
    · simp [start_round, hfind] at hok

/-- C3 witness: after `r1` (status concluida), guard `u1` starts a new
round `r2` successfully; the store gains exactly that round. -/
theorem start_round_spec_witness :
    ∃ st', start_round { rounds := [roundW] } { locais_visitados := ["Portaria Principal"] }
        guardW.toUser 40 "r2" =
      .ok ({ id := "r2", vigilante_id := "u1", vigilante_nome := "Maria",
             inicio := 40, fim := none, status := RoundStatus.iniciada,
             locais_visitados := ["Portaria Principal"], observacoes := none,
             incidentes_encontrados := 0, created_at := 40 }, st') ∧
      st'.rounds = [roundW] ++
        [{ id := "r2", vigilante_id := "u1", vigilante_nome := "Maria",
           inicio := 40, fim := none, status := RoundStatus.iniciada,
           locais_visitados := ["Portaria Principal"], observacoes := none,
           incidentes_encontrados := 0, created_at := 40 }] :=
  (start_round_spec { rounds := [roundW] } { locais_visitados := ["Portaria Principal"] }
    guardW.toUser 40 "r2").2.1 (by decide)

/-! ### C4: listing visibility, ordering, and the to_list(1000) cap -/

/-- Within the 1000-document cap, `take 1000` after sorting is a
permutation of the matched records. -/
theorem take_sortDescBy_perm (key : α → Nat) {l : List α} (h : l.length ≤ 1000) :
    ((sortDescBy key l).take 1000).Perm l := by
  have hlen : (sortDescBy key l).length ≤ 1000 := by
    rw [(sortDescBy_perm key l).length_eq]; exact h
  rw [List.take_of_length_le hlen]
  exact sortDescBy_perm key l

/-- A prefix of a descending-sorted list is descending-sorted. -/
theorem sorted_take_sortDescBy (key : α → Nat) (l : List α) (n : Nat) :
    ((sortDescBy key l).take n).Sorted (fun a b => key b ≤ key a) :=
  List.Pairwise.sublist (List.take_sublist n (sortDescBy key l)) (sorted_sortDescBy key l)

set_option maxRecDepth 4096 in
/-- C4 counterexample: on a store with 1001 occurrences a supervisor
does NOT receive all records — `.to_list(1000)` (server.py 613) caps
the listing at 1000 documents, so some stored occurrence is missing
from the supervisor's result. -/
theorem listing_truncates_at_1000 :
    bigStoreW.occurrences.length = 1001 ∧
    (get_occurrences bigStoreW supW).length = 1000 ∧
    ¬ (∀ o ∈ bigStoreW.occurrences, o ∈ get_occurrences bigStoreW supW) := by
  have hb : (supW.role == UserRole.vigilante) = false := by decide
  have hlen1 : bigStoreW.occurrences.length = 1001 := by
    simp [bigStoreW]
  have hlen2 : (get_occurrences bigStoreW supW).length = 1000 := by
    have hocc : get_occurrences bigStoreW supW =
        (sortDescBy (fun o => o.created_at) bigStoreW.occurrences).take 1000 := by
      simp [get_occurrences, hb]
    rw [hocc, List.length_take, (sortDescBy_perm _ _).length_eq, hlen1]
    omega
  refine ⟨hlen1, hlen2, ?_⟩
  intro hall
  have hinj : Function.Injective
      (fun i : Nat => ({ occW with id := toString i, created_at := i } : Occurrence)) := by
    intro i j hij
    simpa using congrArg Occurrence.created_at hij
  have hnd : bigStoreW.occurrences.Nodup := List.Nodup.map hinj (List.nodup_range 1001)
  have hle := (List.Nodup.subperm hnd (fun _ hm => hall _ hm)).length_le
  rw [hlen1, hlen2] at hle
  omega

/-- C4 (amended): whenever at most 1000 records match (the
`to_list(1000)` cap), a vigilante listing occurrences, rounds, or
shifts receives exactly the records they authored/own and a
supervisor or administrador receives all records; every returned list
is sorted newest-created-first unconditionally. -/
theorem listing_visibility_and_order (st : Store) (cu : User) :
    (cu.role = UserRole.vigilante →
      ((st.occurrences.filter (fun o => o.usuario_id == cu.id)).length ≤ 1000 →
        (get_occurrences st cu).Perm (st.occurrences.filter (fun o => o.usuario_id == cu.id))) ∧
      ((st.rounds.filter (fun r => r.vigilante_id == cu.id)).length ≤ 1000 →
        (get_rounds st cu).Perm (st.rounds.filter (fun r => r.vigilante_id == cu.id))) ∧
      ((st.shifts.filter (fun s => s.vigilante_id == cu.id)).length ≤ 1000 →
        (get_shifts st cu).Perm (st.shifts.filter (fun s => s.vigilante_id == cu.id)))) ∧
    ((cu.role = UserRole.supervisor ∨ cu.role = UserRole.administrador) →
      (st.occurrences.length ≤ 1000 → (get_occurrences st cu).Perm st.occurrences) ∧
      (st.rounds.length ≤ 1000 → (get_rounds st cu).Perm st.rounds) ∧
      (st.shifts.length ≤ 1000 → (get_shifts st cu).Perm st.shifts)) ∧
    (get_occurrences st cu).Sorted (fun a b => b.created_at ≤ a.created_at) ∧
    (get_rounds st cu).Sorted (fun a b => b.created_at ≤ a.created_at) ∧
    (get_shifts st cu).Sorted (fun a b => b.created_at ≤ a.created_at) := by
  refine ⟨?_, ?_, ?_, ?_, ?_⟩
  · intro h
    have hb : (cu.role == UserRole.vigilante) = true := by rw [h] <;> decide
    refine ⟨fun hl => ?_, fun hl => ?_, fun hl => ?_⟩
    · simpa [get_occurrences, hb] using
        take_sortDescBy_perm (fun o : Occurrence => o.created_at) hl
    · simpa [get_rounds, hb] using
        take_sortDescBy_perm (fun r : Round => r.created_at) hl
    · simpa [get_shifts, hb] using
        take_sortDescBy_perm (fun s : Shift => s.created_at) hl
  · intro h
    have hb : (cu.role == UserRole.vigilante) = false := by
      rcases h with h | h <;> rw [h] <;> decide
    refine ⟨fun hl => ?_, fun hl => ?_, fun hl => ?_⟩
    · simpa [get_occurrences, hb] using
        take_sortDescBy_perm (fun o : Occurrence => o.created_at) hl
    · simpa [get_rounds, hb] using
        take_sortDescBy_perm (fun r : Round => r.created_at) hl
    · simpa [get_shifts, hb] using
        take_sortDescBy_perm (fun s : Shift => s.created_at) hl
  · cases hb : cu.role == UserRole.vigilante <;>
      · simp only [get_occurrences, hb]
        exact sorted_take_sortDescBy _ _ _
  · cases hb : cu.role == UserRole.vigilante <;>
      · simp only [get_rounds, hb]
        exact sorted_take_sortDescBy _ _ _
  · cases hb : cu.role == UserRole.vigilante <;>
      · simp only [get_shifts, hb]
        exact sorted_take_sortDescBy _ _ _

/-- C4 (amended) witness: the guard `u1` sees exactly their own
filtered rows at a concrete store within the cap. -/
theorem listing_visibility_and_order_witness :
    guardW.toUser.role = UserRole.vigilante ∧
    (get_occurrences { occurrences := [occW], rounds := [roundW] } guardW.toUser).Perm
      (List.filter (fun o => o.usuario_id == guardW.toUser.id) [occW]) ∧
    (get_rounds { occurrences := [occW], rounds := [roundW] } guardW.toUser).Perm
      (List.filter (fun r => r.vigilante_id == guardW.toUser.id) [roundW]) ∧
    (get_shifts { occurrences := [occW], rounds := [roundW] } guardW.toUser).Perm
      (List.filter (fun s => s.vigilante_id == guardW.toUser.id) []) :=
  ⟨rfl,
    ((listing_visibility_and_order { occurrences := [occW], rounds := [roundW] }
      guardW.toUser).1 rfl).1 (by decide),
    ((listing_visibility_and_order { occurrences := [occW], rounds := [roundW] }
      guardW.toUser).1 rfl).2.1 (by decide),
    ((listing_visibility_and_order { occurrences := [occW], rounds := [roundW] }
      guardW.toUser).1 rfl).2.2 (by decide)⟩

end APISeguranca
